import Mathlib

/-!
Verification development for the `app_incapacidades_back` repository.

The development shallowly embeds the two source files:

* `app/services/notification_service.py` — the `NotificationService` class.
  Database repositories are modelled as lookup functions and a backing user
  list inside a context `Ctx`; the SMTP environment is a record of optional
  strings; the outcome of an actual SMTP transaction is an external oracle
  `net : String → Bool` (whether the blocking network send to a given address
  completes without an exception).  The static HTML/CSS template text of the
  e-mail bodies is elided (the spec places template content out of scope);
  the builders keep the subjects exactly and the dynamic interpolations of
  the bodies in template order.  Logging calls are pure no-ops and are
  dropped.  Where a method's observable behaviour includes which helper
  calls it performs, the embedding returns that trace explicitly
  (`bodiesBuilt`, `emailCalls`, `adminAttempts`, `employeeDelegations`,
  `smtpConnections`).

* `scripts_pruebas/verificar_sql_completo.py` — the SQL regeneration script.
  The input file is modelled by an existence flag plus its list of lines;
  file-system writes are assumed to succeed (file I/O mechanics are out of
  scope); a Python exception escaping the (unguarded) function body is
  modelled by `Except.error`.
-/

/-- Python truthiness of an optional environment-variable string:
`None` and the empty string are falsy. -/
def truthy : Option String → Bool
  | none => false
  | some s => !s.isEmpty

/-- Python `str.strip()`: remove leading and trailing whitespace. -/
def pyStrip (s : String) : String :=
  ⟨((s.data.dropWhile Char.isWhitespace).reverse.dropWhile Char.isWhitespace).reverse⟩

/-- Python `str.startswith(pre)`. -/
def pyStartsWith (s pre : String) : Bool :=
  pre.data.isPrefixOf s.data

/-- Decimal-digit accumulator used to model Python `int(...)`. -/
def digitsToNat (acc : Nat) : List Char → Nat
  | [] => acc
  | c :: cs => digitsToNat (acc * 10 + (c.toNat - 48)) cs

/-- The digits part of Python `int(...)`: non-empty all-digit strings only. -/
def pyDigits? (ds : List Char) : Option Nat :=
  if ds.isEmpty || !ds.all Char.isDigit then none else some (digitsToNat 0 ds)

/-- Model of Python `int(s)` on strings: surrounding whitespace is stripped,
an optional sign is allowed, then decimal digits; anything else raises
(`none`). -/
def pyInt? (s : String) : Option Int :=
  match (pyStrip s).data with
  | '-' :: ds => (pyDigits? ds).map (fun n => -(n : Int))
  | '+' :: ds => (pyDigits? ds).map (fun n => (n : Int))
  | ds => (pyDigits? ds).map (fun n => (n : Int))

/-- The SMTP-related environment variables read by `_send_email` and the
e-mail builders.  `none` models an unset variable. -/
structure SmtpEnv where
  SMTP_SERVER : Option String
  SMTP_PORT : Option String
  SMTP_USERNAME : Option String
  SMTP_PASSWORD : Option String
  FROM_EMAIL : Option String
deriving DecidableEq

/-- Observable outcome of one `_send_email` call: the returned boolean and
how many SMTP connections were opened (0 or 1). -/
structure EmailSendResult where
  ok : Bool
  smtpConnections : Nat
deriving DecidableEq, Repr

/-- `NotificationService._send_email`.  The body runs under a broad
`try/except` returning `False`.  In source order it reads `SMTP_SERVER`,
converts `SMTP_PORT` with `int(...)` (which raises on a non-integer string,
caught by the guard), reads the credentials and `FROM_EMAIL`, and only then
checks the credentials: missing or empty credentials short-circuit to a
simulated send returning `True` with no connection.  Otherwise the blocking
SMTP transaction runs; `net` tells whether it completes without raising. -/
def sendEmail (env : SmtpEnv) (net : Bool) (to_email subject html_content : String)
    (text_content : Option String) : EmailSendResult :=
  let _smtp_server := env.SMTP_SERVER.getD "smtp.gmail.com"
  match pyInt? (env.SMTP_PORT.getD "587") with
  | none => ⟨false, 0⟩
  | some _smtp_port =>
    let smtp_username := env.SMTP_USERNAME
    let smtp_password := env.SMTP_PASSWORD
    let _from_email := match env.FROM_EMAIL with
      | some v => some v
      | none => smtp_username
    if !truthy smtp_username || !truthy smtp_password then ⟨true, 0⟩
    else ⟨net, 1⟩

/-- A row of the `usuario` table as consumed by the service. -/
structure Usuario where
  id_usuario : Nat
  nombre_completo : String
  correo_electronico : String
  rol_id : Nat
  estado : Bool
deriving DecidableEq

/-- The `id`/`nombre`/`email` dictionary built by `_get_administradores`. -/
structure AdminDict where
  id : Nat
  nombre : String
  email : String
deriving DecidableEq, Repr

/-- The incapacity-record dictionary returned by `IncapacidadRepository.get`.
Dates are kept as their ISO strings; optional fields model keys that may be
absent or `None`. -/
structure Incapacidad where
  usuario_id : Nat
  tipo_incapacidad_id : Option Nat
  clase : Option String
  fecha_inicio : Option String
  fecha_final : Option String
  dias : Option Nat
  eps_afiliado : Option String
  servicio : Option String
  diagnostico : Option String
deriving DecidableEq

/-- `UsuarioRepository.list(skip=..., limit=...)` over a backing user list. -/
def usuarioList (usuarios : List Usuario) (skip limit : Nat) : List Usuario :=
  (usuarios.drop skip).take limit

/-- The dictionary appended per matching user in `_get_administradores`. -/
def adminDict (u : Usuario) : AdminDict :=
  ⟨u.id_usuario, u.nombre_completo, u.correo_electronico⟩

/-- `NotificationService._get_administradores`: lists users with
`skip=0, limit=1000` and keeps those with `rol_id == 10` and truthy
`estado`, shaped as `adminDict`.  (The broad guard returning `[]` can only
fire on repository exceptions, which the pure model does not produce.) -/
def getAdministradores (usuarios : List Usuario) : List AdminDict :=
  ((usuarioList usuarios 0 1000).filter (fun u => u.rol_id == 10 && u.estado)).map adminDict

/-- `NotificationService._format_date` on an optional ISO date string:
falsy values give `"N/A"`, otherwise the text before the first `'T'` or
space. -/
def formatDate : Option String → String
  | none => "N/A"
  | some s =>
    if s.isEmpty then "N/A"
    else ⟨(s.data.takeWhile (fun c => c != 'T')).takeWhile (fun c => c != ' ')⟩

/-- `NotificationService._get_primary_color`. -/
def getPrimaryColor : String := "#dc2626"

/-- The nested `empleado` sub-dictionary of a notification payload. -/
structure EmpleadoInfo where
  id : Nat
  nombre : String
  email : String
deriving DecidableEq

/-- The nested `administrador` sub-dictionary of a notification payload. -/
structure AdminInfo where
  id : Nat
  nombre : String
deriving DecidableEq

/-- The nested `incapacidad` sub-dictionary of a notification payload.
The rejection payload omits `clase`/`eps`/`servicio`/`diagnostico`
(modelled as `none` there); the new-incapacity payload fills them with
their `.get` defaults. -/
structure IncapacidadInfo where
  tipo_id : Option Nat
  clase : Option String
  fecha_inicio : Option String
  fecha_final : Option String
  dias : Nat
  eps : Option String
  servicio : Option String
  diagnostico : Option String
deriving DecidableEq

/-- The transient notification payload dictionary built by the public
methods.  `fecha` models the single timestamp key each payload carries
(`fecha_notificacion` / `fecha_revision` / `fecha_rechazo`). -/
structure NotificationData where
  tipo : String
  incapacidad_id : Nat
  empleado : EmpleadoInfo
  administrador : Option AdminInfo
  motivo_rechazo : Option String
  incapacidad : Option IncapacidadInfo
  fecha : String
deriving DecidableEq

/-- External collaborators and environment of one `NotificationService`
request: the two repositories, the SMTP environment, the network oracle,
`datetime.now().isoformat()`, and the optional admin-panel URL and logo
(base64) resolved from environment/filesystem. -/
structure Ctx where
  incapacidadRepo : Nat → Option Incapacidad
  usuarioGet : Nat → Option Usuario
  usuarios : List Usuario
  env : SmtpEnv
  net : String → Bool
  now : String
  panelUrl : Option String
  logoB64 : Option String

/-- The `notification_data` dictionary built by `notify_new_incapacity`. -/
def newIncapacityPayload (ctx : Ctx) (incapacidad_id : Nat) (incapacidad : Incapacidad)
    (empleado : Usuario) : NotificationData :=
  ⟨"nueva_incapacidad", incapacidad_id,
   ⟨empleado.id_usuario, empleado.nombre_completo, empleado.correo_electronico⟩,
   none, none,
   some ⟨incapacidad.tipo_incapacidad_id, some (incapacidad.clase.getD "incapacidad"),
         incapacidad.fecha_inicio, incapacidad.fecha_final, incapacidad.dias.getD 0,
         some (incapacidad.eps_afiliado.getD "N/A"), some (incapacidad.servicio.getD "N/A"),
         some (incapacidad.diagnostico.getD "N/A")⟩,
   ctx.now⟩

/-- The `notification_data` dictionary built by `notify_incapacity_reviewed`. -/
def reviewedPayload (ctx : Ctx) (incapacidad_id : Nat) (empleado admin : Usuario) :
    NotificationData :=
  ⟨"incapacidad_revisada", incapacidad_id,
   ⟨empleado.id_usuario, empleado.nombre_completo, empleado.correo_electronico⟩,
   some ⟨admin.id_usuario, admin.nombre_completo⟩, none, none, ctx.now⟩

/-- The `notification_data` dictionary built by `notify_incapacity_rejected`.
`motivo_rechazo or "No especificado"` applies Python truthiness to the
argument. -/
def rejectedPayload (ctx : Ctx) (incapacidad_id : Nat) (incapacidad : Incapacidad)
    (empleado admin : Usuario) (motivo_rechazo : Option String) : NotificationData :=
  ⟨"incapacidad_rechazada", incapacidad_id,
   ⟨empleado.id_usuario, empleado.nombre_completo, empleado.correo_electronico⟩,
   some ⟨admin.id_usuario, admin.nombre_completo⟩,
   some (if truthy motivo_rechazo then motivo_rechazo.getD "" else "No especificado"),
   some ⟨incapacidad.tipo_incapacidad_id, none,
         incapacidad.fecha_inicio, incapacidad.fecha_final, incapacidad.dias.getD 0,
         none, none, none⟩,
   ctx.now⟩

/-- `NotificationService._create_admin_new_incapacity_email_content`.
Subject is kept exactly; the HTML body keeps the dynamic interpolations in
template order (static HTML/CSS text elided, out of scope per the spec). -/
def createAdminNewIncapacityEmailContent (panelUrlEnv logoB64 : Option String)
    (nd : NotificationData) : String × String :=
  let subject := "🆕 Nueva incapacidad - " ++ nd.empleado.nombre
  let panel_url := panelUrlEnv.getD ""
  let cta_html := if panel_url.isEmpty then "" else
    "Abrir panel administrativo: " ++ panel_url
  let logo_html := match logoB64 with
    | some b => if b.isEmpty then "" else "logo:" ++ b
    | none => ""
  let fecha_inicio_fmt := formatDate (nd.incapacidad.bind IncapacidadInfo.fecha_inicio)
  let fecha_fin_fmt := formatDate (nd.incapacidad.bind IncapacidadInfo.fecha_final)
  let dias_txt := match nd.incapacidad with
    | some i => toString i.dias
    | none => "N/A"
  let html_content := String.intercalate "\n"
    [ getPrimaryColor
    , logo_html
    , "Nueva Incapacidad"
    , "Se ha creado una nueva incapacidad por el empleado " ++ nd.empleado.nombre
        ++ " (" ++ nd.empleado.email ++ ")."
    , "Fecha de Inicio: " ++ fecha_inicio_fmt
    , "Fecha de Fin: " ++ fecha_fin_fmt
    , "Días: " ++ dias_txt
    , cta_html
    , "Por favor ingresa al panel administrativo para revisar y gestionar esta solicitud."
    ]
  (subject, html_content)

/-- `NotificationService._create_rejection_email_content`.  Subject kept
exactly; HTML body keeps the dynamic interpolations in template order.
A payload key present with value `None` renders as Python `"None"`. -/
def createRejectionEmailContent (nd : NotificationData) : String × String :=
  let nombre_empleado := nd.empleado.nombre
  let nombre_admin := match nd.administrador with
    | some a => a.nombre
    | none => "Administrador"
  let motivo_rechazo := nd.motivo_rechazo.getD "No especificado"
  let asunto := "❌ Incapacidad Rechazada - " ++ nombre_empleado
  let fecha_inicio_txt := match nd.incapacidad with
    | none => "N/A"
    | some i => match i.fecha_inicio with
      | none => "None"
      | some s => s
  let fecha_final_txt := match nd.incapacidad with
    | none => "N/A"
    | some i => match i.fecha_final with
      | none => "None"
      | some s => s
  let dias_txt := match nd.incapacidad with
    | none => "N/A"
    | some i => toString i.dias
  let html_content := String.intercalate "\n"
    [ "Incapacidad Rechazada"
    , "Estimado/a " ++ nombre_empleado
    , "ID de Incapacidad: " ++ toString nd.incapacidad_id
    , "Fecha de Inicio: " ++ fecha_inicio_txt
    , "Fecha de Fin: " ++ fecha_final_txt
    , "Días Solicitados: " ++ dias_txt
    , "Motivo del Rechazo: " ++ motivo_rechazo
    , "Revisado por: " ++ nombre_admin
    , "Fecha de Rechazo: " ++ nd.fecha
    ]
  (asunto, html_content)

/-- Observable outcome of one delegated send helper
(`_send_notification_to_admin` / `_send_notification_to_employee`): the
returned boolean, how many templated e-mail bodies were built, and the
recipient of each `_send_email` call made. -/
structure DelegatedSendResult where
  ok : Bool
  bodiesBuilt : Nat
  emailCalls : List String
deriving DecidableEq, Repr

/-- `NotificationService._send_notification_to_admin`: builds the
new-incapacity e-mail content and plain-text fallback, then delegates to
`_send_email` for the administrator's address. -/
def sendNotificationToAdmin (ctx : Ctx) (admin : AdminDict) (nd : NotificationData) :
    DelegatedSendResult :=
  let sc := createAdminNewIncapacityEmailContent ctx.panelUrl ctx.logoB64 nd
  let dias_txt := match nd.incapacidad with
    | some i => toString i.dias
    | none => "N/A"
  let text_content :=
    "Nueva incapacidad registrada por " ++ nd.empleado.nombre
      ++ " (" ++ nd.empleado.email ++ ").\n"
      ++ "Fecha inicio: " ++ formatDate (nd.incapacidad.bind IncapacidadInfo.fecha_inicio) ++ "\n"
      ++ "Fecha fin: " ++ formatDate (nd.incapacidad.bind IncapacidadInfo.fecha_final) ++ "\n"
      ++ "Días: " ++ dias_txt ++ "\n"
  let r := sendEmail ctx.env (ctx.net admin.email) admin.email sc.1 sc.2 (some text_content)
  ⟨r.ok, 1, [admin.email]⟩

/-- `NotificationService._send_notification_to_employee`: only the
`"incapacidad_rechazada"` branch builds an e-mail body and calls
`_send_email`; the `"incapacidad_revisada"` and general branches log and
return `True` directly. -/
def sendNotificationToEmployee (ctx : Ctx) (empleado : Usuario) (nd : NotificationData) :
    DelegatedSendResult :=
  if nd.tipo == "incapacidad_rechazada" then
    let sc := createRejectionEmailContent nd
    let motivo := nd.motivo_rechazo.getD "No especificado"
    let text_content := "Incapacidad rechazada. Motivo: " ++ motivo
    let r := sendEmail ctx.env (ctx.net empleado.correo_electronico)
      empleado.correo_electronico sc.1 sc.2 (some text_content)
    ⟨r.ok, 1, [empleado.correo_electronico]⟩
  else
    ⟨true, 0, []⟩

/-- Observable outcome of one public notify method: the returned boolean,
the administrators passed (in order) to `_send_notification_to_admin`, the
number of templated e-mail bodies built, the recipient of each
`_send_email` call, and the number of `_send_notification_to_employee`
delegations. -/
structure NotifyResult where
  ok : Bool
  adminAttempts : List AdminDict
  bodiesBuilt : Nat
  emailCalls : List String
  employeeDelegations : Nat
deriving DecidableEq, Repr

/-- The result of every early-return failure path of the notify methods. -/
def notifyFail : NotifyResult := ⟨false, [], 0, [], 0⟩

/-- `NotificationService.notify_new_incapacity`: looks up the incapacity
and its employee, fetches the administrator list, returns `False` when any
of those is missing/empty, otherwise builds the payload and attempts one
send per administrator, returning `success_count > 0`. -/
def notifyNewIncapacity (ctx : Ctx) (incapacidad_id : Nat) : NotifyResult :=
  match ctx.incapacidadRepo incapacidad_id with
  | none => notifyFail
  | some incapacidad =>
    match ctx.usuarioGet incapacidad.usuario_id with
    | none => notifyFail
    | some empleado =>
      let administradores := getAdministradores ctx.usuarios
      if administradores.isEmpty then notifyFail
      else
        let notification_data := newIncapacityPayload ctx incapacidad_id incapacidad empleado
        let sends := administradores.map
          (fun admin => (admin, sendNotificationToAdmin ctx admin notification_data))
        let success_count := sends.countP (fun p => p.2.ok)
        ⟨decide (0 < success_count),
         sends.map Prod.fst,
         (sends.map (fun p => p.2.bodiesBuilt)).sum,
         (sends.map (fun p => p.2.emailCalls)).flatten,
         0⟩

/-- `NotificationService.notify_admins_new_incapacity`: logs and delegates
to `notify_new_incapacity`; `empleado_id` is only logged. -/
def notifyAdminsNewIncapacity (ctx : Ctx) (incapacidad_id empleado_id : Nat) : NotifyResult :=
  let _ := empleado_id
  notifyNewIncapacity ctx incapacidad_id

/-- `NotificationService.notify_incapacity_reviewed`: looks up the
incapacity, its employee and the administrator, returns `False` when any is
missing, otherwise builds the payload and delegates to
`_send_notification_to_employee`. -/
def notifyIncapacityReviewed (ctx : Ctx) (incapacidad_id admin_id : Nat) : NotifyResult :=
  match ctx.incapacidadRepo incapacidad_id with
  | none => notifyFail
  | some incapacidad =>
    match ctx.usuarioGet incapacidad.usuario_id with
    | none => notifyFail
    | some empleado =>
      match ctx.usuarioGet admin_id with
      | none => notifyFail
      | some admin =>
        let nd := reviewedPayload ctx incapacidad_id empleado admin
        let r := sendNotificationToEmployee ctx empleado nd
        ⟨r.ok, [], r.bodiesBuilt, r.emailCalls, 1⟩

/-- `NotificationService.notify_incapacity_rejected`: looks up the
incapacity, its employee and the administrator, returns `False` when any is
missing, otherwise builds the payload and delegates to
`_send_notification_to_employee`. -/
def notifyIncapacityRejected (ctx : Ctx) (incapacidad_id admin_id : Nat)
    (motivo_rechazo : Option String) : NotifyResult :=
  match ctx.incapacidadRepo incapacidad_id with
  | none => notifyFail
  | some incapacidad =>
    match ctx.usuarioGet incapacidad.usuario_id with
    | none => notifyFail
    | some empleado =>
      match ctx.usuarioGet admin_id with
      | none => notifyFail
      | some admin =>
        let nd := rejectedPayload ctx incapacidad_id incapacidad empleado admin motivo_rechazo
        let r := sendNotificationToEmployee ctx empleado nd
        ⟨r.ok, [], r.bodiesBuilt, r.emailCalls, 1⟩

/-- `NotificationService.get_notification_history`: stub, always the empty
list. -/
def getNotificationHistory (user_id skip limit : Nat) : List NotificationData :=
  let _ := (user_id, skip, limit)
  []

/-- `NotificationService.mark_notification_as_read`: stub, always `True`. -/
def markNotificationAsRead (notification_id user_id : Nat) : Bool :=
  let _ := (notification_id, user_id)
  true

/-- A parsed `(codigo, descripcion)` diagnosis pair. -/
structure Diagnostico where
  codigo : String
  descripcion : String
deriving DecidableEq, Repr

/-- Python `linea.split('\t', 1)`: at most one split, at the first tab.
When a tab is present the result is the text before the first tab and all
the text after it; otherwise the single-element list. -/
def splitTab1 (s : String) : List String :=
  if s.data.contains '\t' then
    [⟨s.data.takeWhile (fun c => c != '\t')⟩,
     ⟨(s.data.dropWhile (fun c => c != '\t')).drop 1⟩]
  else [s]

/-- One iteration of the parsing loop of `verificar_y_regenerar`: strip the
line; skip empty lines and the `COD_4`/`DESCRIPCION` headers; split at the
first tab (requiring two parts); keep the stripped parts when the code has
length at least 4, an alphabetic first character and only digits
afterwards. -/
def parseLinea (linea : String) : Option Diagnostico :=
  let l := pyStrip linea
  if l.isEmpty || pyStartsWith l "COD_4" || pyStartsWith l "DESCRIPCION" then none
  else
    match splitTab1 l with
    | p0 :: p1 :: _ =>
      let codigo := pyStrip p0
      let descripcion := pyStrip p1
      if decide (4 ≤ codigo.data.length) && (codigo.data.headD ' ').isAlpha
          && !(codigo.data.drop 1).isEmpty && (codigo.data.drop 1).all Char.isDigit then
        some ⟨codigo, descripcion⟩
      else none
    | _ => none

/-- The full parsing loop over the lines of `diagnosticos.txt`. -/
def parseDiagnosticos (lineas : List String) : List Diagnostico :=
  lineas.filterMap parseLinea

/-- `batch_size = 100`. -/
def batchSize : Nat := 100

/-- `total_batches = (len(diagnosticos) + batch_size - 1) // batch_size`. -/
def totalBatches (n : Nat) : Nat := (n + batchSize - 1) / batchSize

/-- The slices `diagnosticos[start_idx:end_idx]` taken by the batch loop,
one per `batch_num in range(total_batches)`. -/
def lotes (l : List Diagnostico) : List (List Diagnostico) :=
  (List.range (totalBatches l.length)).map (fun b => (l.drop (b * batchSize)).take batchSize)

/-- Python `str.replace` for a single-character pattern: every occurrence
of the character is replaced by the replacement characters. -/
def replaceChar (c : Char) (r : List Char) : List Char → List Char
  | [] => []
  | x :: xs => if x = c then r ++ replaceChar c r xs else x :: replaceChar c r xs

/-- The SQL escaping applied to each field:
`replace("'", "\\'").replace('"', '\\"')`. -/
def escapeSql (s : String) : String :=
  ⟨replaceChar '\x22' ['\\', '\x22'] (replaceChar '\x27' ['\\', '\x27'] s.data)⟩

/-- The value row written for one diagnosis:
`(7, '<codigo>', '<descripcion>', 1)`. -/
def valueRow (d : Diagnostico) : String :=
  "(7, \x27" ++ escapeSql d.codigo ++ "\x27, \x27" ++ escapeSql d.descripcion ++ "\x27, 1)"

/-- The `INSERT` statements of the generated file, each as its list of
value rows, one statement per batch of at most 100 diagnoses. -/
def insertStatements (l : List Diagnostico) : List (List String) :=
  (lotes l).map (fun lote => lote.map valueRow)

/-- The generated `insert_diagnosticos_mysql.sql` file: its fixed header
and footer lines, the total count written in the header comment, and the
`INSERT` statements. -/
structure SqlFile where
  headerTotal : Nat
  statements : List (List String)
deriving DecidableEq, Repr

/-- The file-generation step of `verificar_y_regenerar`. -/
def generarSql (l : List Diagnostico) : SqlFile :=
  ⟨l.length, insertStatements l⟩

/-- `verificar_y_regenerar` (module `scripts_pruebas/verificar_sql_completo.py`).
The function body has no exception guard.  A missing input file returns
early (`none` result, no file written).  Otherwise the lines are parsed,
the SQL file is written (file-system success assumed, out of scope), the
print-only regex verification runs, and finally `diagnosticos[-1]` is read
for the example printout — which raises `IndexError` exactly when no line
parsed. -/
def verificar_y_regenerar (archivoExiste : Bool) (lineas : List String) :
    Except String (Option SqlFile) :=
  if !archivoExiste then Except.ok none
  else
    let diagnosticos := parseDiagnosticos lineas
    let sql := generarSql diagnosticos
    if diagnosticos.isEmpty then Except.error "IndexError: list index out of range"
    else Except.ok (some sql)

/-- Whether a run of the script terminated normally (no exception escaped). -/
def runsNormally : Except String (Option SqlFile) → Bool
  | Except.ok _ => true
  | Except.error _ => false

/-! ### Batching lemmas for the SQL generation loop -/

theorem totalBatches_succ (n : Nat) (h : 0 < n) :
    totalBatches n = totalBatches (n - batchSize) + 1 := by
  unfold totalBatches batchSize
  omega

theorem lotes_nil : lotes [] = [] := rfl

theorem lotes_cons (l : List Diagnostico) (h : l ≠ []) :
    lotes l = l.take batchSize :: lotes (l.drop batchSize) := by
  have hn : 0 < l.length := List.length_pos.mpr h
  have hmap : ∀ b : Nat, (l.drop batchSize).drop (b * batchSize) = l.drop ((b + 1) * batchSize) := by
    intro b
    rw [List.drop_drop]
    congr 1
    ring
  unfold lotes
  rw [List.length_drop, totalBatches_succ l.length hn, List.range_succ_eq_map,
    List.map_cons, List.map_map]
  refine congrArg₂ (· :: ·) ?_ ?_
  · simp
  · refine List.map_congr_left (fun b _ => ?_)
    simp only [Function.comp_apply, hmap b, Nat.succ_eq_add_one]

theorem lotes_ne_nil (l : List Diagnostico) (h : l ≠ []) : lotes l ≠ [] := by
  rw [lotes_cons l h]
  exact List.cons_ne_nil _ _

theorem lotes_flatten (l : List Diagnostico) : (lotes l).flatten = l := by
  by_cases h : l = []
  · subst h
    rfl
  · rw [lotes_cons l h, List.flatten_cons, lotes_flatten (l.drop batchSize),
      List.take_append_drop]
termination_by l.length
decreasing_by
  have hn : 0 < l.length := List.length_pos.mpr h
  simp only [List.length_drop, batchSize]
  omega

theorem lotes_dropLast_length (l : List Diagnostico) :
    ∀ b ∈ (lotes l).dropLast, b.length = batchSize := by
  by_cases h : l = []
  · subst h
    intro b hb
    simp [lotes_nil] at hb
  · rw [lotes_cons l h]
    by_cases h2 : l.drop batchSize = []
    · intro b hb
      rw [h2, lotes_nil] at hb
      simp at hb
    · rcases hq : lotes (l.drop batchSize) with _ | ⟨y, ys⟩
      · exact absurd hq (lotes_ne_nil _ h2)
      · intro b hb
        rw [List.dropLast_cons₂] at hb
        rcases List.mem_cons.mp hb with hb | hb
        · subst hb
          have hlen : batchSize < l.length := by
            by_contra hle
            exact h2 (List.drop_eq_nil_iff.mpr (by omega))
          rw [List.length_take]
          omega
        · exact lotes_dropLast_length (l.drop batchSize) b (by rw [hq]; exact hb)
termination_by l.length
decreasing_by
  have hn : 0 < l.length := List.length_pos.mpr h
  simp only [List.length_drop, batchSize]
  omega

theorem lotes_getLast_length (l : List Diagnostico) (h : l ≠ []) :
    (lotes l).getLast?.map List.length
      = some (if l.length % batchSize = 0 then batchSize else l.length % batchSize) := by
  rw [lotes_cons l h]
  by_cases h2 : l.drop batchSize = []
  · have hle : l.length ≤ batchSize := List.drop_eq_nil_iff.mp h2
    have hpos : 0 < l.length := List.length_pos.mpr h
    rw [h2, lotes_nil, List.getLast?_singleton, Option.map_some', List.length_take]
    congr 1
    simp only [batchSize] at hle hpos ⊢
    split <;> omega
  · rcases hq : lotes (l.drop batchSize) with _ | ⟨y, ys⟩
    · exact absurd hq (lotes_ne_nil _ h2)
    · rw [List.getLast?_cons_cons, ← hq,
        lotes_getLast_length (l.drop batchSize) h2, List.length_drop]
      have hlen : batchSize < l.length := by
        by_contra hle
        exact h2 (List.drop_eq_nil_iff.mpr (by omega))
      congr 1
      have hmod : (l.length - batchSize) % batchSize = l.length % batchSize := by
        simp only [batchSize] at hlen ⊢
        omega
      rw [hmod]
termination_by l.length
decreasing_by
  have hn : 0 < l.length := List.length_pos.mpr h
  simp only [List.length_drop, batchSize]
  omega

/-! ### Sample data shared by witnesses and counterexamples -/

/-- An SMTP environment with every variable unset. -/
def envSinSmtp : SmtpEnv := ⟨none, none, none, none, none⟩

/-- An SMTP environment whose `SMTP_PORT` is set to the empty string (so
`int(...)` raises) and whose credentials are unset. -/
def envPortRoto : SmtpEnv := ⟨none, some "", none, none, none⟩

/-- A sample active administrator (`rol_id = 10`, `estado = True`). -/
def uAdmin : Usuario := ⟨7, "Ana Admin", "ana@umit.co", 10, true⟩

/-- A sample employee (non-administrator role). -/
def uEmp : Usuario := ⟨2, "Eva Empleada", "eva@umit.co", 3, true⟩

/-- A sample incapacity record belonging to `uEmp`. -/
def incW : Incapacidad :=
  ⟨2, some 1, some "general", some "2025-01-01T00:00:00", some "2025-01-05T00:00:00",
   some 5, some "EPS", some "consulta", some "A001"⟩

/-- A sample context: incapacity 1 exists, users 2 and 7 exist, the backing
user list holds one employee and one active administrator. -/
def ctxW : Ctx :=
  ⟨fun n => if n = 1 then some incW else none,
   fun n => if n = 2 then some uEmp else if n = 7 then some uAdmin else none,
   [uEmp, uAdmin], envSinSmtp, fun _ => true, "2025-02-01T08:00:00", none, none⟩

/-- A sample context with empty repositories. -/
def ctxVacio : Ctx :=
  ⟨fun _ => none, fun _ => none, [], envSinSmtp, fun _ => true,
   "2025-02-01T08:00:00", none, none⟩

/-- A small parsed diagnosis list. -/
def diagsW : List Diagnostico := [⟨"A001", "uno"⟩, ⟨"A002", "dos"⟩, ⟨"A003", "tres"⟩]

/-! ### Claims -/

/-- C4, counterexample: not every operation terminates normally on every
input.  `verificar_y_regenerar` runs with no exception guard and, on an
existing input file that yields zero valid diagnosis lines, the final
`diagnosticos[-1]` access raises `IndexError`. -/
theorem claim_C4_counterexample :
    ¬ (∀ (archivoExiste : Bool) (lineas : List String),
        runsNormally (verificar_y_regenerar archivoExiste lineas) = true) := by
  intro hall
  exact absurd (hall true []) (by decide)

/-- C4, amended: the notification-service operations are guarded and return
booleans or empty results, but the SQL-regeneration entry point
`verificar_y_regenerar` terminates normally exactly when the input file is
missing or yields at least one valid diagnosis line; with an existing file
and zero valid lines it propagates an `IndexError`. -/
theorem claim_C4_amended (archivoExiste : Bool) (lineas : List String) :
    runsNormally (verificar_y_regenerar archivoExiste lineas) = true
      ↔ (archivoExiste = false ∨ parseDiagnosticos lineas ≠ []) := by
  unfold verificar_y_regenerar
  cases archivoExiste with
  | false => simp [runsNormally]
  | true =>
    rcases hd : parseDiagnosticos lineas with _ | ⟨d, ds⟩
    · simp [runsNormally, hd]
    · simp [runsNormally, hd]

/-- C4, amended, witness: with an existing file holding one valid line the
script terminates normally. -/
theorem claim_C4_amended_witness :
    runsNormally (verificar_y_regenerar true ["A001\tuno"]) = true :=
  (claim_C4_amended true ["A001\tuno"]).mpr (Or.inr (by decide))

/-- C5 (confirmed): for a non-empty parsed diagnosis list, the generated
SQL contains exactly `⌈n/100⌉` `INSERT` statements; every statement except
possibly the last carries exactly 100 value rows; the last carries
`n mod 100` rows (or 100 when `n` is a multiple of 100); and the value
rows, concatenated across statements, are exactly the parsed pairs in
input order. -/
theorem claim_C5_sql_batching (l : List Diagnostico) (h : l ≠ []) :
    (insertStatements l).length = (l.length + 99) / 100
    ∧ (∀ b ∈ (insertStatements l).dropLast, b.length = 100)
    ∧ (insertStatements l).getLast?.map List.length
        = some (if l.length % 100 = 0 then 100 else l.length % 100)
    ∧ (insertStatements l).flatten = l.map valueRow := by
  refine ⟨?_, ?_, ?_, ?_⟩
  · simp only [insertStatements, List.length_map, lotes, List.length_range,
      totalBatches, batchSize]
    omega
  · intro b hb
    unfold insertStatements at hb
    rw [← List.map_dropLast] at hb
    rcases List.mem_map.mp hb with ⟨c, hc, rfl⟩
    rw [List.length_map]
    have hlen := lotes_dropLast_length l c hc
    simpa [batchSize] using hlen
  · unfold insertStatements
    rw [List.getLast?_map, Option.map_map]
    have hcomp : (List.length ∘ fun lote : List Diagnostico => lote.map valueRow)
        = List.length := by
      funext c
      simp
    rw [hcomp, lotes_getLast_length l h]
    simp [batchSize]
  · unfold insertStatements
    rw [← List.map_flatten, lotes_flatten]

/-- C5, witness at a concrete three-element diagnosis list. -/
theorem claim_C5_sql_batching_witness :
    diagsW ≠ []
    ∧ ((insertStatements diagsW).length = (diagsW.length + 99) / 100
      ∧ (∀ b ∈ (insertStatements diagsW).dropLast, b.length = 100)
      ∧ (insertStatements diagsW).getLast?.map List.length
          = some (if diagsW.length % 100 = 0 then 100 else diagsW.length % 100)
      ∧ (insertStatements diagsW).flatten = diagsW.map valueRow) :=
  ⟨by decide, claim_C5_sql_batching diagsW (by decide)⟩

/-- C9 (confirmed): `notify_admins_new_incapacity` returns exactly the
result of `notify_new_incapacity` on the same incapacity id; the
`empleado_id` argument is only logged and has no effect. -/
theorem claim_C9_alias (ctx : Ctx) (incapacidad_id empleado_id : Nat) :
    notifyAdminsNewIncapacity ctx incapacidad_id empleado_id
      = notifyNewIncapacity ctx incapacidad_id := rfl

/-- C10 (confirmed): `get_notification_history` always returns the empty
list and `mark_notification_as_read` always returns `True`, for all
arguments. -/
theorem claim_C10_stubs :
    (∀ user_id skip limit : Nat, getNotificationHistory user_id skip limit = [])
    ∧ (∀ notification_id user_id : Nat,
        markNotificationAsRead notification_id user_id = true) :=
  ⟨fun _ _ _ => rfl, fun _ _ => rfl⟩

/-- C1, counterexample: it is not true that every `_send_email` call with
unset or empty credentials returns `True`.  With `SMTP_PORT` set to a
non-integer string (here the empty string) the `int(...)` conversion raises
before the credential check and the guard returns `False` — still with no
SMTP connection. -/
theorem claim_C1_counterexample :
    ¬ (∀ (env : SmtpEnv) (net : Bool) (to_email subject html_content : String)
        (text_content : Option String),
        (truthy env.SMTP_USERNAME = false ∨ truthy env.SMTP_PASSWORD = false) →
        (sendEmail env net to_email subject html_content text_content).ok = true
        ∧ (sendEmail env net to_email subject html_content text_content).smtpConnections
            = 0) := by
  intro hall
  have h := (hall envPortRoto true "a@b.c" "s" "h" none (Or.inl (by decide))).1
  exact absurd h (by decide)

/-- C1, amended: for every `_send_email` call with `SMTP_USERNAME` or
`SMTP_PASSWORD` unset or empty, no SMTP connection is opened; the call
returns `True` (logging the simulated send) provided `SMTP_PORT` (default
`"587"`) parses as an integer, and returns `False` when `SMTP_PORT` is set
to a non-integer string, because the `int(...)` conversion raises before
the credential check. -/
theorem claim_C1_amended (env : SmtpEnv) (net : Bool)
    (to_email subject html_content : String) (text_content : Option String)
    (h : truthy env.SMTP_USERNAME = false ∨ truthy env.SMTP_PASSWORD = false) :
    (sendEmail env net to_email subject html_content text_content).smtpConnections = 0
    ∧ ((pyInt? (env.SMTP_PORT.getD "587")).isSome = true →
        (sendEmail env net to_email subject html_content text_content).ok = true)
    ∧ (pyInt? (env.SMTP_PORT.getD "587") = none →
        (sendEmail env net to_email subject html_content text_content).ok = false) := by
  have hcred : (!truthy env.SMTP_USERNAME || !truthy env.SMTP_PASSWORD) = true := by
    rcases h with h | h <;> simp [h]
  rcases hp : pyInt? (env.SMTP_PORT.getD "587") with _ | p
  · simp [sendEmail, hp]
  · simp [sendEmail, hp, hcred]

/-- C1, amended, witness: with every SMTP variable unset, the default port
`"587"` parses, no connection is opened and the call returns `True`. -/
theorem claim_C1_amended_witness :
    (truthy envSinSmtp.SMTP_USERNAME = false ∨ truthy envSinSmtp.SMTP_PASSWORD = false)
    ∧ ((sendEmail envSinSmtp true "a@b.c" "s" "h" none).smtpConnections = 0
      ∧ ((pyInt? (envSinSmtp.SMTP_PORT.getD "587")).isSome = true →
          (sendEmail envSinSmtp true "a@b.c" "s" "h" none).ok = true)
      ∧ (pyInt? (envSinSmtp.SMTP_PORT.getD "587") = none →
          (sendEmail envSinSmtp true "a@b.c" "s" "h" none).ok = false)) :=
  ⟨Or.inl (by decide),
   claim_C1_amended envSinSmtp true "a@b.c" "s" "h" none (Or.inl (by decide))⟩

/-- C2 (confirmed): when the incapacity lookup, or the lookup of the
employee it references, returns nothing, `notify_new_incapacity`,
`notify_incapacity_reviewed` and `notify_incapacity_rejected` all return
`False` (the embedding is total, so no exception is raised). -/
theorem claim_C2_missing_lookups (ctx : Ctx) (incapacidad_id admin_id : Nat)
    (motivo : Option String)
    (h : ctx.incapacidadRepo incapacidad_id = none
      ∨ ∃ inc, ctx.incapacidadRepo incapacidad_id = some inc
          ∧ ctx.usuarioGet inc.usuario_id = none) :
    (notifyNewIncapacity ctx incapacidad_id).ok = false
    ∧ (notifyIncapacityReviewed ctx incapacidad_id admin_id).ok = false
    ∧ (notifyIncapacityRejected ctx incapacidad_id admin_id motivo).ok = false := by
  rcases h with h | ⟨inc, h1, h2⟩
  · simp [notifyNewIncapacity, notifyIncapacityReviewed, notifyIncapacityRejected,
      h, notifyFail]
  · simp [notifyNewIncapacity, notifyIncapacityReviewed, notifyIncapacityRejected,
      h1, h2, notifyFail]

/-- C2, witness: with empty repositories every lookup misses and each of
the three methods returns `False`. -/
theorem claim_C2_missing_lookups_witness :
    ctxVacio.incapacidadRepo 1 = none
    ∧ ((notifyNewIncapacity ctxVacio 1).ok = false
      ∧ (notifyIncapacityReviewed ctxVacio 1 2).ok = false
      ∧ (notifyIncapacityRejected ctxVacio 1 2 none).ok = false) :=
  ⟨rfl, claim_C2_missing_lookups ctxVacio 1 2 none (Or.inl rfl)⟩

/-- C3 (confirmed): with an existing record, an existing employee and a
non-empty administrator list, `notify_new_incapacity` passes exactly the
administrator list, in order, to `_send_notification_to_admin`, so the
number of send attempts equals the length of that list. -/
theorem claim_C3_one_attempt_per_admin (ctx : Ctx) (incapacidad_id : Nat)
    (inc : Incapacidad) (emp : Usuario)
    (h1 : ctx.incapacidadRepo incapacidad_id = some inc)
    (h2 : ctx.usuarioGet inc.usuario_id = some emp)
    (h3 : getAdministradores ctx.usuarios ≠ []) :
    (notifyNewIncapacity ctx incapacidad_id).adminAttempts = getAdministradores ctx.usuarios
    ∧ (notifyNewIncapacity ctx incapacidad_id).adminAttempts.length
        = (getAdministradores ctx.usuarios).length := by
  have hne : (getAdministradores ctx.usuarios).isEmpty = false := by
    rcases hq : getAdministradores ctx.usuarios with _ | ⟨a, as⟩
    · exact absurd hq h3
    · rfl
  have hmain : (notifyNewIncapacity ctx incapacidad_id).adminAttempts
      = getAdministradores ctx.usuarios := by
    have hcomp : ∀ f : AdminDict → DelegatedSendResult,
        (Prod.fst ∘ fun admin => (admin, f admin)) = fun a : AdminDict => a :=
      fun _ => rfl
    simp only [notifyNewIncapacity, h1, h2, hne, Bool.false_eq_true, if_false,
      List.map_map, hcomp _, List.map_id']
  exact ⟨hmain, by rw [hmain]⟩

/-- C3, witness at the sample context with one administrator. -/
theorem claim_C3_one_attempt_per_admin_witness :
    (ctxW.incapacidadRepo 1 = some incW
      ∧ ctxW.usuarioGet incW.usuario_id = some uEmp
      ∧ getAdministradores ctxW.usuarios ≠ [])
    ∧ ((notifyNewIncapacity ctxW 1).adminAttempts = getAdministradores ctxW.usuarios
      ∧ (notifyNewIncapacity ctxW 1).adminAttempts.length
          = (getAdministradores ctxW.usuarios).length) :=
  ⟨⟨by decide, by decide, by decide⟩,
   claim_C3_one_attempt_per_admin ctxW 1 incW uEmp (by decide) (by decide) (by decide)⟩

/-- C6 (confirmed): the administrator list consists exactly of the users of
the repository listing (`skip=0, limit=1000`) whose `rol_id` is 10 and
whose `estado` is true, each shaped as its `id`/`nombre`/`email`
dictionary, and of nothing else. -/
theorem claim_C6_admin_filter (usuarios : List Usuario) :
    (∀ u ∈ usuarioList usuarios 0 1000,
        u.rol_id = 10 → u.estado = true → adminDict u ∈ getAdministradores usuarios)
    ∧ (∀ d ∈ getAdministradores usuarios,
        ∃ u, u ∈ usuarioList usuarios 0 1000 ∧ u.rol_id = 10 ∧ u.estado = true
          ∧ d = adminDict u) := by
  constructor
  · intro u hu hrol hest
    refine List.mem_map.mpr ⟨u, ?_, rfl⟩
    exact List.mem_filter.mpr ⟨hu, by simp [hrol, hest]⟩
  · intro d hd
    rcases List.mem_map.mp hd with ⟨u, hu, rfl⟩
    have hf := List.mem_filter.mp hu
    have hb : u.rol_id = 10 ∧ u.estado = true := by
      have := hf.2
      simpa using this
    exact ⟨u, hf.1, hb.1, hb.2, rfl⟩

/-- C6, witness: the sample administrator is listed, has role 10 and active
state, and its dictionary is in the computed administrator list. -/
theorem claim_C6_admin_filter_witness :
    (uAdmin ∈ usuarioList [uEmp, uAdmin] 0 1000
      ∧ uAdmin.rol_id = 10 ∧ uAdmin.estado = true)
    ∧ adminDict uAdmin ∈ getAdministradores [uEmp, uAdmin] :=
  ⟨⟨by decide, rfl, rfl⟩,
   (claim_C6_admin_filter [uEmp, uAdmin]).1 uAdmin (by decide) rfl rfl⟩

/-- C7, counterexample: not every public method performs a templated
e-mail-body build and an `_send_email` call on its success path.  On a
context where the record, the employee and the administrator all exist,
`notify_incapacity_reviewed` succeeds while building zero e-mail bodies and
making zero `_send_email` calls: its delegate only logs for the
`"incapacidad_revisada"` type. -/
theorem claim_C7_counterexample :
    ¬ (∀ (ctx : Ctx) (incapacidad_id admin_id : Nat) (inc : Incapacidad)
        (emp adm : Usuario),
        ctx.incapacidadRepo incapacidad_id = some inc →
        ctx.usuarioGet inc.usuario_id = some emp →
        ctx.usuarioGet admin_id = some adm →
        1 ≤ (notifyIncapacityReviewed ctx incapacidad_id admin_id).bodiesBuilt
        ∧ (notifyIncapacityReviewed ctx incapacidad_id admin_id).emailCalls ≠ []) := by
  intro hall
  have h := hall ctxW 1 7 incW uEmp uAdmin (by decide) (by decide) (by decide)
  exact absurd h.1 (by decide)

/-- C7, amended: on their success paths `notify_new_incapacity` and
`notify_incapacity_rejected` perform lookup, payload shaping, a templated
e-mail-body build and a delegated `_send_email` call, but
`notify_incapacity_reviewed` — although it performs its lookups, builds its
payload and delegates once to `_send_notification_to_employee` — builds no
e-mail body and makes no `_send_email` call, returning `True` from the
logging-only reviewed branch (and the history/mark-as-read stubs perform
none of the four steps). -/
theorem claim_C7_amended (ctx : Ctx) (incapacidad_id admin_id : Nat)
    (motivo : Option String) (inc : Incapacidad) (emp adm : Usuario)
    (h1 : ctx.incapacidadRepo incapacidad_id = some inc)
    (h2 : ctx.usuarioGet inc.usuario_id = some emp)
    (h3 : ctx.usuarioGet admin_id = some adm) :
    (notifyIncapacityReviewed ctx incapacidad_id admin_id).employeeDelegations = 1
    ∧ (notifyIncapacityReviewed ctx incapacidad_id admin_id).bodiesBuilt = 0
    ∧ (notifyIncapacityReviewed ctx incapacidad_id admin_id).emailCalls = []
    ∧ (notifyIncapacityReviewed ctx incapacidad_id admin_id).ok = true
    ∧ (notifyIncapacityRejected ctx incapacidad_id admin_id motivo).employeeDelegations = 1
    ∧ (notifyIncapacityRejected ctx incapacidad_id admin_id motivo).bodiesBuilt = 1
    ∧ (notifyIncapacityRejected ctx incapacidad_id admin_id motivo).emailCalls
        = [emp.correo_electronico] := by
  have hrev : (("incapacidad_revisada" : String) == "incapacidad_rechazada") = false := by
    decide
  have hrej : (("incapacidad_rechazada" : String) == "incapacidad_rechazada") = true := by
    decide
  simp [notifyIncapacityReviewed, notifyIncapacityRejected, h1, h2, h3,
    sendNotificationToEmployee, reviewedPayload, rejectedPayload, hrev, hrej]

/-- C7, amended, witness at the sample context. -/
theorem claim_C7_amended_witness :
    (ctxW.incapacidadRepo 1 = some incW
      ∧ ctxW.usuarioGet incW.usuario_id = some uEmp
      ∧ ctxW.usuarioGet 7 = some uAdmin)
    ∧ ((notifyIncapacityReviewed ctxW 1 7).employeeDelegations = 1
      ∧ (notifyIncapacityReviewed ctxW 1 7).bodiesBuilt = 0
      ∧ (notifyIncapacityReviewed ctxW 1 7).emailCalls = []
      ∧ (notifyIncapacityReviewed ctxW 1 7).ok = true
      ∧ (notifyIncapacityRejected ctxW 1 7 (some "incompleta")).employeeDelegations = 1
      ∧ (notifyIncapacityRejected ctxW 1 7 (some "incompleta")).bodiesBuilt = 1
      ∧ (notifyIncapacityRejected ctxW 1 7 (some "incompleta")).emailCalls
          = [uEmp.correo_electronico]) :=
  ⟨⟨by decide, by decide, by decide⟩,
   claim_C7_amended ctxW 1 7 (some "incompleta") incW uEmp uAdmin
     (by decide) (by decide) (by decide)⟩

/-- C8 (confirmed): with an existing record and employee,
`notify_new_incapacity` returns `False` on an empty administrator list, and
otherwise returns `True` exactly when at least one per-administrator send
attempt returned `True` (the loop returns `success_count > 0`). -/
theorem claim_C8_success_iff (ctx : Ctx) (incapacidad_id : Nat)
    (inc : Incapacidad) (emp : Usuario)
    (h1 : ctx.incapacidadRepo incapacidad_id = some inc)
    (h2 : ctx.usuarioGet inc.usuario_id = some emp) :
    (getAdministradores ctx.usuarios = [] →
      (notifyNewIncapacity ctx incapacidad_id).ok = false)
    ∧ ((notifyNewIncapacity ctx incapacidad_id).ok = true
        ↔ ∃ a ∈ getAdministradores ctx.usuarios,
            (sendNotificationToAdmin ctx a
              (newIncapacityPayload ctx incapacidad_id inc emp)).ok = true) := by
  constructor
  · intro he
    simp [notifyNewIncapacity, h1, h2, he, notifyFail]
  · by_cases he : getAdministradores ctx.usuarios = []
    · simp [notifyNewIncapacity, h1, h2, he, notifyFail]
    · have hne : (getAdministradores ctx.usuarios).isEmpty = false := by
        rcases hq : getAdministradores ctx.usuarios with _ | ⟨a, as⟩
        · exact absurd hq he
        · rfl
      simp only [notifyNewIncapacity, h1, h2, hne, Bool.false_eq_true, if_false]
      simp [List.countP_map, List.countP_pos_iff, Function.comp]

/-- C8, witness at the sample context with one administrator. -/
theorem claim_C8_success_iff_witness :
    (ctxW.incapacidadRepo 1 = some incW
      ∧ ctxW.usuarioGet incW.usuario_id = some uEmp)
    ∧ ((getAdministradores ctxW.usuarios = [] → (notifyNewIncapacity ctxW 1).ok = false)
      ∧ ((notifyNewIncapacity ctxW 1).ok = true
          ↔ ∃ a ∈ getAdministradores ctxW.usuarios,
              (sendNotificationToAdmin ctxW a
                (newIncapacityPayload ctxW 1 incW uEmp)).ok = true)) :=
  ⟨⟨by decide, by decide⟩, claim_C8_success_iff ctxW 1 incW uEmp (by decide) (by decide)⟩
